import Mathlib

/-!
Shallow embedding of the chat client component in
`src/client/src/components/Chat.tsx` (the `Chat` React component), together
with theorems about its observable behavior.

The component holds seven pieces of `useState` state, emits four kinds of
socket events to the server, and installs six socket event handlers.  Each of
those is embedded below as a pure Lean function over an explicit state record:
event-handler callbacks return the updated state, emitter callbacks return the
list of events emitted together with the updated state, and the mount-time
identity effect additionally returns the updated `localStorage` cell for the
key `chatUserId` (modelled as an `Option String`).
-/

namespace Chat

/-- The `Message` wire shape from `Chat.tsx` (`interface Message`): `id`,
`content`, `senderId` are strings; the `timestamp : Date` is modelled as an
integer (milliseconds since the epoch). -/
structure Message where
  id : String
  content : String
  senderId : String
  timestamp : Int
deriving DecidableEq, Repr

/-- The client-to-server events of `interface ClientToServerEvents`: exactly
four event names, with the payload types declared in `Chat.tsx`. -/
inductive ClientEvent where
  | createRoom : ClientEvent
  | joinRoom (roomCode : String) : ClientEvent
  | sendMessage (roomCode : String) (message : String) (userId : String) : ClientEvent
  | setUserId (userId : String) : ClientEvent
deriving DecidableEq, Repr

/-- The `useState` state of the `Chat` component, one field per hook, in
declaration order. -/
structure ClientState where
  roomCode : String
  inputCode : String
  message : String
  messages : List Message
  connected : Bool
  users : Int
  userId : String
deriving DecidableEq, Repr

/-- The initial state of the component: every `useState` initial value from
`Chat.tsx` (empty strings, empty list, `false`, `0`). -/
def initState : ClientState :=
  { roomCode := "", inputCode := "", message := "", messages := [],
    connected := false, users := 0, userId := "" }

/-- JavaScript truthiness of a `localStorage.getItem` result: `null` (here
`none`) and the empty string are falsy, every other string is truthy. -/
def jsTruthy : Option String → Bool
  | none => false
  | some s => s ≠ ""

/-- The identity-binding `useEffect` run on mount: reads `chatUserId` from
`localStorage` (`stored`), takes `storedUserId || crypto.randomUUID()` (the
fresh UUID is passed in as `freshUUID`), writes it back when `!storedUserId`,
sets the `userId` state and emits `set-user-id`.  Returns the new component
state, the new `localStorage` cell, and the emitted events. -/
def mountEffect (stored : Option String) (freshUUID : String)
    (s : ClientState) : ClientState × Option String × List ClientEvent :=
  let newUserId := if jsTruthy stored then stored.getD "" else freshUUID
  let stored' := if jsTruthy stored then stored else some newUserId
  ({ s with userId := newUserId }, stored', [ClientEvent.setUserId newUserId])

/-- Handler for `room-created`: `setRoomCode(code)`. -/
def onRoomCreated (code : String) (s : ClientState) : ClientState :=
  { s with roomCode := code }

/-- Handler for `joined-room`: `setRoomCode(roomCode)`, `setMessages(messages)`,
`setConnected(true)`. -/
def onJoinedRoom (roomCode : String) (messages : List Message)
    (s : ClientState) : ClientState :=
  { s with roomCode := roomCode, messages := messages, connected := true }

/-- Handler for `new-message`: `setMessages((prev) => [...prev, message])`. -/
def onNewMessage (message : Message) (s : ClientState) : ClientState :=
  { s with messages := s.messages ++ [message] }

/-- Handler for `user-joined`: `setUsers(userCount)`. -/
def onUserJoined (userCount : Int) (s : ClientState) : ClientState :=
  { s with users := userCount }

/-- Handler for `user-left`: `setUsers(userCount)`. -/
def onUserLeft (userCount : Int) (s : ClientState) : ClientState :=
  { s with users := userCount }

/-- Handler for `error`: `alert(error)` and nothing else.  The blocking alert
is modelled as a returned string; the state is returned unchanged. -/
def onError (error : String) (s : ClientState) : ClientState × String :=
  (s, error)

/-- Emitter `createRoom`: `socket.emit('create-room')`; no state change. -/
def createRoom (s : ClientState) : List ClientEvent × ClientState :=
  ([ClientEvent.createRoom], s)

/-- Emitter `joinRoom`: `socket.emit('join-room', inputCode.toUpperCase())`; no state
change. -/
def joinRoom (s : ClientState) : List ClientEvent × ClientState :=
  ([ClientEvent.joinRoom s.inputCode.toUpper], s)

/-- Input handler `handleInputChange`: `setInputCode(e.target.value)`. -/
def handleInputChange (value : String) (s : ClientState) : ClientState :=
  { s with inputCode := value }

/-- Input handler `handleMessageChange`: `setMessage(e.target.value)`. -/
def handleMessageChange (value : String) (s : ClientState) : ClientState :=
  { s with message := value }

/-- JavaScript `String.prototype.trim`: removes whitespace from both ends of
the string (computed on the character list so that it evaluates by kernel
reduction). -/
def jsTrim (s : String) : String :=
  ⟨((s.data.dropWhile Char.isWhitespace).reverse.dropWhile
      Char.isWhitespace).reverse⟩

/-- Form-submit handler `sendMessage`: when `message.trim()` is truthy (a non-empty
string), emits `send-message` with `{roomCode, message, userId}` taken from
the current state and resets `message` to the empty string; otherwise emits
nothing and leaves the state unchanged. -/
def sendMessage (s : ClientState) : List ClientEvent × ClientState :=
  if jsTrim s.message = "" then
    ([], s)
  else
    ([ClientEvent.sendMessage s.roomCode s.message s.userId],
     { s with message := "" })

/-- C1: submitting the message form emits a `send-message` event if and only
if the current message text trims to a non-empty string; when the text trims
to empty, no event is emitted and the state (the message input included) is
left unchanged. -/
theorem sendMessage_guard (s : ClientState) :
    (jsTrim s.message ≠ "" →
      (sendMessage s).1 =
        [ClientEvent.sendMessage s.roomCode s.message s.userId]) ∧
    (jsTrim s.message = "" → sendMessage s = ([], s)) := by
  constructor
  · intro h
    simp [sendMessage, h]
  · intro h
    simp [sendMessage, h]

/-- Witness for C1 at a concrete whitespace-only message: no event is emitted
and the state is unchanged. -/
theorem sendMessage_guard_witness :
    sendMessage { initState with message := " " } =
      ([], { initState with message := " " }) :=
  (sendMessage_guard { initState with message := " " }).2 (by decide)

/-- C2: no locally-triggered operation (submitting a message, creating or
joining a room) ever modifies the rendered message list; the `messages` state
grows only in the `new-message` handler, which appends the arrived message. -/
theorem messages_grow_only_on_new_message (s : ClientState) (m : Message) :
    (sendMessage s).2.messages = s.messages ∧
    (createRoom s).2.messages = s.messages ∧
    (joinRoom s).2.messages = s.messages ∧
    (onNewMessage m s).messages = s.messages ++ [m] := by
  refine ⟨?_, rfl, rfl, rfl⟩
  unfold sendMessage
  split <;> rfl

/-- C3: for every string typed into the room-code field, clicking Join emits
`join-room` with that string converted to uppercase, and changes no state. -/
theorem joinRoom_uppercases (s : ClientState) (typed : String) :
    joinRoom (handleInputChange typed s) =
      ([ClientEvent.joinRoom typed.toUpper], handleInputChange typed s) := rfl

/-- C4: the `new-message` handler appends the received message at the end of
`messages`, leaving all previously held messages unchanged and in order. -/
theorem onNewMessage_appends (m : Message) (s : ClientState) :
    (onNewMessage m s).messages = s.messages ++ [m] ∧
    ∀ i : Fin s.messages.length,
      (onNewMessage m s).messages.get ⟨i, by
        simp [onNewMessage]; omega⟩ = s.messages.get i := by
  refine ⟨rfl, fun i => ?_⟩
  simp [onNewMessage, List.getElem_append_left]

/-- C5: the `joined-room` handler sets `messages` to exactly the received
list (replacing any prior list), sets `roomCode` to the received code, sets
`connected` to `true`, and changes nothing else. -/
theorem onJoinedRoom_replaces (rc : String) (ms : List Message)
    (s : ClientState) :
    onJoinedRoom rc ms s =
      { s with roomCode := rc, messages := ms, connected := true } := rfl

/-- C7: every event the client emits is one of the four `ClientEvent`
constructors with the declared payloads: `create-room` carries nothing,
`join-room` carries the uppercased input code, `send-message` carries the
`{roomCode, message, userId}` strings of the current state (or nothing is
emitted), and the mount effect emits `set-user-id` with exactly the
identifier it stored into the `userId` state. -/
theorem emitted_events_shape (s : ClientState) (stored : Option String)
    (freshUUID : String) :
    (createRoom s).1 = [ClientEvent.createRoom] ∧
    (joinRoom s).1 = [ClientEvent.joinRoom s.inputCode.toUpper] ∧
    ((sendMessage s).1 = [] ∨
      (sendMessage s).1 =
        [ClientEvent.sendMessage s.roomCode s.message s.userId]) ∧
    (mountEffect stored freshUUID s).2.2 =
      [ClientEvent.setUserId (mountEffect stored freshUUID s).1.userId] := by
  refine ⟨rfl, rfl, ?_, rfl⟩
  unfold sendMessage
  split
  · exact Or.inl rfl
  · exact Or.inr rfl

/-- C8: the `error` handler surfaces the received message string directly as
the blocking alert and leaves every state field unchanged. -/
theorem onError_alerts_only (error : String) (s : ClientState) :
    onError error s = (s, error) := rfl

/-- C9: the `user-joined` and `user-left` handlers set `users` to exactly the
received count and change no other state field. -/
theorem presence_handlers_set_users (userCount : Int) (s : ClientState) :
    onUserJoined userCount s = { s with users := userCount } ∧
    onUserLeft userCount s = { s with users := userCount } := ⟨rfl, rfl⟩

/-- C10: when the message trims non-empty, the emitted `send-message` payload
carries the original untrimmed text exactly as typed, and the message input
state is then reset to the empty string. -/
theorem sendMessage_untrimmed_payload (s : ClientState)
    (h : jsTrim s.message ≠ "") :
    sendMessage s =
      ([ClientEvent.sendMessage s.roomCode s.message s.userId],
       { s with message := "" }) := by
  simp [sendMessage, h]

/-- Witness for C10 at the concrete message `" hi "`: the payload carries the
untrimmed text `" hi "` and the input resets to `""`. -/
theorem sendMessage_untrimmed_payload_witness :
    sendMessage { initState with message := " hi " } =
      ([ClientEvent.sendMessage "" " hi " ""],
       { initState with message := "" }) :=
  sendMessage_untrimmed_payload { initState with message := " hi " }
    (by decide)

/-- C6 as stated is false: if `localStorage` holds the *empty string* under
`chatUserId`, a stored identifier exists but `storedUserId ||
crypto.randomUUID()` is falsy on it, so the client does not reuse it — it
generates and stores a fresh UUID instead. -/
theorem mountEffect_empty_stored_counterexample :
    (mountEffect (some "") "fresh-uuid" initState).1.userId = "fresh-uuid" ∧
    (mountEffect (some "") "fresh-uuid" initState).2.1 = some "fresh-uuid" := by
  decide

/-- C6 (amended): on mount, if `localStorage` holds a *non-empty* identifier
under `chatUserId` the client reuses it unchanged and leaves the stored cell
untouched; if the key is absent (or holds the empty string) it generates a
fresh UUID and stores it; in either case it sets the `userId` state to that
value and emits `set-user-id` with exactly that value. -/
theorem mountEffect_identity (stored : Option String) (freshUUID : String)
    (s : ClientState) :
    (∀ u : String, u ≠ "" → stored = some u →
      mountEffect stored freshUUID s =
        ({ s with userId := u }, some u, [ClientEvent.setUserId u])) ∧
    (jsTruthy stored = false →
      mountEffect stored freshUUID s =
        ({ s with userId := freshUUID }, some freshUUID,
         [ClientEvent.setUserId freshUUID])) := by
  constructor
  · rintro u hu rfl
    simp [mountEffect, jsTruthy, hu]
  · intro h
    simp [mountEffect, h]

/-- Witness for the amended C6 at a concrete stored identifier `"id-1"`: it
is reused unchanged, kept in storage, and emitted via `set-user-id`. -/
theorem mountEffect_identity_witness :
    mountEffect (some "id-1") "fresh-uuid" initState =
      ({ initState with userId := "id-1" }, some "id-1",
       [ClientEvent.setUserId "id-1"]) :=
  (mountEffect_identity (some "id-1") "fresh-uuid" initState).1
    "id-1" (by decide) rfl

end Chat
